import Mathlib

/-!
# Verification of the reefer-container telemetry simulator

Shallow embedding of `simulator/domain/reefer_simulator.py`.

Python floats are modelled as rationals (`ℚ`), Python ints as `ℕ`/`ℤ`.
All pseudo-random draws (`random.gauss`, `np.random.normal`,
`np.random.randint`, `random.randint`) are modelled as oracle input
streams bundled in `SimRandom`; the comment on each field records which
distribution the source draws the values from.  Fallible library calls
(numpy array allocation with a negative size, Python name resolution)
are modelled with `Except PyError`.
-/

/-- `CO2_LEVEL = 4` (percent), line 15 of the source. -/
def CO2_LEVEL : ℚ := 4

/-- `O2_LEVEL = 21` (percent), line 16 of the source. -/
def O2_LEVEL : ℚ := 21

/-- `POWER_LEVEL = 7.2` (kW), line 18 of the source. -/
def POWER_LEVEL : ℚ := 7.2

/-- `NB_RECORDS_IMPACTED = 7`, line 19 of the source. -/
def NB_RECORDS_IMPACTED : ℕ := 7

/-- `MAX_RECORDS = 1000`, line 20 of the source. -/
def MAX_RECORDS : ℕ := 1000

/-- `DEFROST_LEVEL = 7`, line 21 of the source. -/
def DEFROST_LEVEL : ℕ := 7

/-- The pseudo-random draws consumed by one iteration of the loop in
`_simulatePowerOff` (lines 105-136):
* `temp` models `random.gauss(tgood, 2.0)` (line 107),
* `pwr` models `random.gauss(POWER_LEVEL, 6)` (line 109),
* `pwrcSeed` models `random.gauss(POWER_LEVEL, 10.0)` (line 111), consumed
  only when the carried accumulator `pwrc` is `0`. -/
structure RowSamples where
  temp : ℚ
  pwr : ℚ
  pwrcSeed : ℚ
deriving DecidableEq

/-- The state carried between iterations of `_simulatePowerOff`:
the previous row's temperature `temp`, the power-off run counter
`count_pwr`, and the consumption accumulator `pwrc` (lines 102-104). -/
structure PowerOffState where
  temp : ℚ
  count_pwr : ℕ
  pwrc : ℚ
deriving DecidableEq

/-- The four series values emitted for one row by `_simulatePowerOff`
(lines 133-136). -/
structure PowerOffRow where
  temperature : ℚ
  maintenance_required : ℕ
  power : ℚ
  powerConsumption : ℚ
deriving DecidableEq

/-- The variables live after the `if pwr < 0 / elif 0 < count_pwr < 7`
branch (lines 116-126) and before the termination check (line 127). -/
structure BranchResult where
  temp : ℚ
  pwr : ℚ
  count_pwr : ℕ
  pwrc : ℚ
deriving DecidableEq

/-- Lines 110-114: `if pwrc == 0: pwrc = random.gauss(POWER_LEVEL, 10.0)
else: pwrc = pwr + pwrc`.  `s.pwr` is the raw sample of line 109, not yet
zeroed by the power-off branch. -/
def updatePwrc (st : PowerOffState) (s : RowSamples) : ℚ :=
  if st.pwrc = 0 then s.pwrcSeed else s.pwr + st.pwrc

/-- Lines 106-126 of `_simulatePowerOff`: sample the row, update the
accumulator, then run the power-off branch.
* `pwr < 0` (line 118): zero the power, increment the run counter, revert
  the temperature to the previous row's (`oldtemp`).
* `0 < count_pwr < NB_RECORDS_IMPACTED` (line 122): increment the counter,
  zero the power, and set `temp = oldtemp + 0.8 * count_pwr` with
  `count_pwr` already incremented.
* otherwise keep the freshly sampled temperature and power. -/
def powerOffBranch (st : PowerOffState) (s : RowSamples) : BranchResult :=
  if s.pwr < 0 then
    { temp := st.temp, pwr := 0, count_pwr := st.count_pwr + 1,
      pwrc := updatePwrc st s }
  else if 0 < st.count_pwr ∧ st.count_pwr < NB_RECORDS_IMPACTED then
    { temp := st.temp + 0.8 * ((st.count_pwr : ℚ) + 1), pwr := 0,
      count_pwr := st.count_pwr + 1, pwrc := updatePwrc st s }
  else
    { temp := s.temp, pwr := s.pwr, count_pwr := st.count_pwr,
      pwrc := updatePwrc st s }

/-- Lines 127-136 of `_simulatePowerOff`: when the counter has reached
`NB_RECORDS_IMPACTED` the row is flagged and both the counter and the
accumulator are reset to `0` before the row's values are stored; then the
row is emitted and `temp`, `count_pwr`, `pwrc` are carried forward. -/
def powerOffFlagAndEmit (b : BranchResult) : PowerOffRow × PowerOffState :=
  if b.count_pwr = NB_RECORDS_IMPACTED then
    ({ temperature := b.temp, maintenance_required := 1, power := b.pwr,
       powerConsumption := 0 },
     { temp := b.temp, count_pwr := 0, pwrc := 0 })
  else
    ({ temperature := b.temp, maintenance_required := 0, power := b.pwr,
       powerConsumption := b.pwrc },
     { temp := b.temp, count_pwr := b.count_pwr, pwrc := b.pwrc })

/-- One full iteration of the loop body of `_simulatePowerOff`
(lines 105-136). -/
def powerOffStep (st : PowerOffState) (s : RowSamples) :
    PowerOffRow × PowerOffState :=
  powerOffFlagAndEmit (powerOffBranch st s)

/-- The loop of `_simulatePowerOff`: a left-to-right scan emitting one
row per sample triple. -/
def powerOffScan (st : PowerOffState) : List RowSamples → List PowerOffRow
  | [] => []
  | s :: rest => (powerOffStep st s).1 :: powerOffScan (powerOffStep st s).2 rest

/-- The state entering iteration `i` of the scan started at `st`. -/
def stateAt (st : PowerOffState) : List RowSamples → ℕ → PowerOffState
  | [], _ => st
  | _ :: _, 0 => st
  | s :: rest, i + 1 => stateAt (powerOffStep st s).2 rest i

/-- All pseudo-random streams consumed by one generation call, indexed by
row number:
* `o2` models `np.random.normal(O2_LEVEL, 3.0)` (line 67),
* `co2` models `np.random.normal(CO2_LEVEL, 3.0)` (line 68),
* `doorOpen` models `np.random.normal(30.0, 2.0)` (line 69),
* `statTemp` models `np.random.normal(tgood, 2.0)` (line 70),
* `statPower` models `np.random.normal(POWER_LEVEL, 6)` (line 71),
* `defrost` models `np.random.randint(0, DEFROST_LEVEL)` (line 74),
* `contentTypePick` models `random.randint(1, 5)` (line 58),
* `temp0` models `random.gauss(tgood, 3.0)` (line 102),
* `rowTemp`, `rowPwr`, `rowPwrcSeed` are the per-row draws of
  `_simulatePowerOff` (see `RowSamples`). -/
structure SimRandom where
  o2 : ℕ → ℚ
  co2 : ℕ → ℚ
  doorOpen : ℕ → ℚ
  statTemp : ℕ → ℚ
  statPower : ℕ → ℚ
  defrost : ℕ → ℕ
  contentTypePick : ℕ
  temp0 : ℚ
  rowTemp : ℕ → ℚ
  rowPwr : ℕ → ℚ
  rowPwrcSeed : ℕ → ℚ

/-- The sample triple consumed by row `i` of the state machine. -/
def sampleAt (rng : SimRandom) (i : ℕ) : RowSamples :=
  { temp := rng.rowTemp i, pwr := rng.rowPwr i, pwrcSeed := rng.rowPwrcSeed i }

/-- The per-row sample triples for an `n`-row run. -/
def samplesOf (rng : SimRandom) (n : ℕ) : List RowSamples :=
  (List.range n).map (sampleAt rng)

/-- The initial state of `_simulatePowerOff` (lines 102-104):
`temp = random.gauss(tgood, 3.0)`, `count_pwr = 0`, `pwrc = 0`. -/
def initState (rng : SimRandom) : PowerOffState :=
  { temp := rng.temp0, count_pwr := 0, pwrc := 0 }

/-- `_simulatePowerOff` (lines 79-143): run the state machine for
`nb_records` rows from the initial state. -/
def simulatePowerOff (rng : SimRandom) (nb_records : ℕ) : List PowerOffRow :=
  powerOffScan (initState rng) (samplesOf rng nb_records)

/-- The state entering row `i` of a `simulatePowerOff` run. -/
def poStateAt (rng : SimRandom) (n i : ℕ) : PowerOffState :=
  stateAt (initState rng) (samplesOf rng n) i

/-- Python-level failures observable from the embedded functions.
* `valueError` models the `ValueError` numpy/pandas raise when asked for an
  array of negative size (e.g. `np.repeat(cid, nb_records)` with
  `nb_records < 0`).
* `nameError` models the `NameError` raised when an undefined bare name is
  evaluated (lines 216 and 279).
* `invalidConfiguration` is modelled from the spec: §7 of the spec names an
  `InvalidConfiguration` error for bad row counts, but the source under
  `src/` defines no such class and never raises it; the constructor exists
  so that the spec's claim can be stated and compared with the code. -/
inductive PyError where
  | valueError : PyError
  | nameError : PyError
  | invalidConfiguration : PyError
deriving DecidableEq

instance exceptDecEq {ε α : Type} [DecidableEq ε] [DecidableEq α] :
    DecidableEq (Except ε α) := fun x y =>
  match x, y with
  | Except.ok a, Except.ok b =>
    if h : a = b then isTrue (by rw [h])
    else isFalse (by intro hc; cases hc; exact h rfl)
  | Except.error e, Except.error f =>
    if h : e = f then isTrue (by rw [h])
    else isFalse (by intro hc; cases hc; exact h rfl)
  | Except.ok _, Except.error _ => isFalse (by intro hc; cases hc)
  | Except.error _, Except.ok _ => isFalse (by intro hc; cases hc)

/-- `np.repeat(x, n)`: a list of `n` copies of `x`; numpy raises
`ValueError` when `n < 0`. -/
def npRepeat {α : Type} (x : α) (n : ℤ) : Except PyError (List α) :=
  if n < 0 then Except.error PyError.valueError
  else Except.ok (List.replicate n.toNat x)

/-- `np.random.normal(μ, σ, size=n)` with its draws supplied by the oracle
stream `stream`; numpy raises `ValueError` when `n < 0`. -/
def npNormal (stream : ℕ → ℚ) (n : ℤ) : Except PyError (List ℚ) :=
  if n < 0 then Except.error PyError.valueError
  else Except.ok ((List.range n.toNat).map stream)

/-- `np.random.randint(lo, hi, size=n)` with its draws supplied by the
oracle stream `stream`; numpy raises `ValueError` when `n < 0`. -/
def npRandint (stream : ℕ → ℕ) (n : ℤ) : Except PyError (List ℕ) :=
  if n < 0 then Except.error PyError.valueError
  else Except.ok ((List.range n.toNat).map stream)

/-- The columns produced by `_generateStationaryCols` (lines 40-76). -/
structure StationaryCols where
  id : List String
  contentType : List ℕ
  targetTemperature : List ℚ
  o2 : List ℚ
  co2 : List ℚ
  timeDoorOpen : List ℚ
  temperature : List ℚ
  power : List ℚ
  defrostCycle : List ℕ
deriving DecidableEq

/-- `_generateStationaryCols(nb_records, cid, content_type, tgood)`
(lines 40-76): the per-row-independent columns.  `content_type` is
`random.randint(1, 5)` when `None`.  The first numpy allocation raises
`ValueError` when `nb_records < 0`. -/
def generateStationaryCols (rng : SimRandom) (nb_records : ℤ) (cid : String)
    (content_type : Option ℕ) (tgood : ℚ) : Except PyError StationaryCols := do
  let ct := content_type.getD rng.contentTypePick
  let ids ← npRepeat cid nb_records
  let cts ← npRepeat ct nb_records
  let tts ← npRepeat tgood nb_records
  let o2s ← npNormal rng.o2 nb_records
  let co2s ← npNormal rng.co2 nb_records
  let doors ← npNormal rng.doorOpen nb_records
  let temps ← npNormal rng.statTemp nb_records
  let pwrs ← npNormal rng.statPower nb_records
  let dfr ← npRandint rng.defrost nb_records
  return { id := ids, contentType := cts, targetTemperature := tts,
           o2 := o2s, co2 := co2s, timeDoorOpen := doors,
           temperature := temps, power := pwrs, defrostCycle := dfr }

/-- `_generateTimestamps(nb_records, start_time)` (lines 24-37): timestamps
in minutes, starting at `start_time` (or the current time `now` when it is
`None`) and advancing by exactly 15 minutes per row.  `pd.date_range`
raises `ValueError` for a negative period count. -/
def generateTimestamps (nb_records : ℤ) (start_time : Option ℤ) (now : ℤ) :
    Except PyError (List ℤ) :=
  if nb_records < 0 then Except.error PyError.valueError
  else Except.ok ((List.range nb_records.toNat).map fun i =>
    start_time.getD now + 15 * (i : ℤ))

/-- A full result table in the canonical column order
`ReeferSimulator.COLUMN_ORDER` (lines 152-155): the structure's field
order is the canonical schema. -/
structure Dataset where
  timestamp : List ℤ
  id : List String
  temperature : List ℚ
  targetTemperature : List ℚ
  power : List ℚ
  powerConsumption : List ℚ
  contentType : List ℕ
  o2 : List ℚ
  co2 : List ℚ
  timeDoorOpen : List ℚ
  maintenanceRequired : List ℕ
  defrostCycle : List ℕ
deriving DecidableEq

/-- `pandas.Series.cumsum` with running total `acc`. -/
def cumsumFrom (acc : ℚ) : List ℚ → List ℚ
  | [] => []
  | x :: xs => (acc + x) :: cumsumFrom (acc + x) xs

/-- `df["Power"].cumsum()` (line 251): the running cumulative sum. -/
def cumsum (l : List ℚ) : List ℚ := cumsumFrom 0 l

/-- `ReeferSimulator.generatePowerOff` (lines 157-192): stationary columns
and timestamps, then the four state-machine columns overlaid, returned in
canonical column order. -/
def generatePowerOff (rng : SimRandom) (cid : String) (nb_records : ℤ)
    (tgood : ℚ) (content_type : Option ℕ) (start_time : Option ℤ)
    (now : ℤ) : Except PyError Dataset := do
  let stat ← generateStationaryCols rng nb_records cid content_type tgood
  let ts ← generateTimestamps nb_records start_time now
  let sm := simulatePowerOff rng nb_records.toNat
  return { timestamp := ts, id := stat.id,
           temperature := sm.map (fun r => r.temperature),
           targetTemperature := stat.targetTemperature,
           power := sm.map (fun r => r.power),
           powerConsumption := sm.map (fun r => r.powerConsumption),
           contentType := stat.contentType, o2 := stat.o2, co2 := stat.co2,
           timeDoorOpen := stat.timeDoorOpen,
           maintenanceRequired := sm.map (fun r => r.maintenance_required),
           defrostCycle := stat.defrostCycle }

/-- `ReeferSimulator.generateCo2` (lines 227-254): stationary columns and
timestamps, `PowerConsumption` as the cumulative sum of `Power`, and
`Maintenance_Required` set to 1 exactly where `CO2 > CO2_LEVEL` or
`CO2 < 0` (lines 251-253). -/
def generateCo2 (rng : SimRandom) (cid : String) (nb_records : ℤ)
    (tgood : ℚ) (content_type : Option ℕ) (start_time : Option ℤ)
    (now : ℤ) : Except PyError Dataset := do
  let stat ← generateStationaryCols rng nb_records cid content_type tgood
  let ts ← generateTimestamps nb_records start_time now
  return { timestamp := ts, id := stat.id, temperature := stat.temperature,
           targetTemperature := stat.targetTemperature,
           power := stat.power, powerConsumption := cumsum stat.power,
           contentType := stat.contentType, o2 := stat.o2, co2 := stat.co2,
           timeDoorOpen := stat.timeDoorOpen,
           maintenanceRequired := stat.co2.map (fun x =>
             if x > CO2_LEVEL ∨ x < 0 then 1 else 0),
           defrostCycle := stat.defrostCycle }

/-- One row-tuple in the canonical field order (the payload of
`DataFrame.to_records`, lines 225 and 288). -/
structure Record where
  timestamp : ℤ
  id : String
  temperature : ℚ
  targetTemperature : ℚ
  power : ℚ
  powerConsumption : ℚ
  contentType : ℕ
  o2 : ℚ
  co2 : ℚ
  timeDoorOpen : ℚ
  maintenanceRequired : ℕ
  defrostCycle : ℕ
deriving DecidableEq

/-- `list(df.to_records(index=False))`: one tuple per row, fields in
canonical order. -/
def toRecords (d : Dataset) : List Record :=
  (List.range d.timestamp.length).map fun i =>
    { timestamp := d.timestamp.getD i 0, id := d.id.getD i "",
      temperature := d.temperature.getD i 0,
      targetTemperature := d.targetTemperature.getD i 0,
      power := d.power.getD i 0,
      powerConsumption := d.powerConsumption.getD i 0,
      contentType := d.contentType.getD i 0, o2 := d.o2.getD i 0,
      co2 := d.co2.getD i 0, timeDoorOpen := d.timeDoorOpen.getD i 0,
      maintenanceRequired := d.maintenanceRequired.getD i 0,
      defrostCycle := d.defrostCycle.getD i 0 }

/-- `ReeferSimulator.generatePowerOffTuples` (lines 194-225).  Line 216
reads `df = generatePowerOff(cid, nb_records, tgood, content_type)`: the
bare name `generatePowerOff` is not defined at module scope (the generator
is a method of `ReeferSimulator`), so Python raises `NameError` the moment
the function body runs, before any row is produced.  The statements after
line 216 (forcing `Maintenance_Required` to 0 and converting to a record
list) are dead code. -/
def generatePowerOffTuples (rng : SimRandom) (cid : String) (nb_records : ℤ)
    (tgood : ℚ) (content_type : Option ℕ) (start_time : Option ℤ)
    (now : ℤ) : Except PyError (List Record) := do
  let df ← (Except.error PyError.nameError : Except PyError Dataset)
  return toRecords { df with
    maintenanceRequired := List.replicate nb_records.toNat 0 }

/-- `ReeferSimulator.generateCo2Tuples` (lines 257-288).  Line 279 reads
`df = generateCo2(cid, nb_records, tgood, content_type, start_time)`: the
bare name `generateCo2` is likewise undefined at module scope, so the call
raises `NameError` for every input; the rest of the body is dead code. -/
def generateCo2Tuples (rng : SimRandom) (cid : String) (nb_records : ℤ)
    (tgood : ℚ) (content_type : Option ℕ) (start_time : Option ℤ)
    (now : ℤ) : Except PyError (List Record) := do
  let df ← (Except.error PyError.nameError : Except PyError Dataset)
  return toRecords { df with
    maintenanceRequired := List.replicate nb_records.toNat 0 }

/-- `generatePowerOffTuples` with its dangling reference resolved to the
simulator's own tabular generator, as §9 of the spec directs.  Line 216
passes no `start_time`, so the wired call uses the default `None`. -/
def generatePowerOffTuplesWired (rng : SimRandom) (cid : String)
    (nb_records : ℤ) (tgood : ℚ) (content_type : Option ℕ)
    (start_time : Option ℤ) (now : ℤ) : Except PyError (List Record) := do
  let df ← generatePowerOff rng cid nb_records tgood content_type none now
  return toRecords { df with
    maintenanceRequired := List.replicate nb_records.toNat 0 }

/-- `generateCo2Tuples` with its dangling reference resolved to the
simulator's own tabular generator (line 279 does pass `start_time`). -/
def generateCo2TuplesWired (rng : SimRandom) (cid : String)
    (nb_records : ℤ) (tgood : ℚ) (content_type : Option ℕ)
    (start_time : Option ℤ) (now : ℤ) : Except PyError (List Record) := do
  let df ← generateCo2 rng cid nb_records tgood content_type start_time now
  return toRecords { df with
    maintenanceRequired := List.replicate nb_records.toNat 0 }

/-- The `Maintenance_Required` column of a generation result (empty on
error). -/
def maintColOf : Except PyError Dataset → List ℕ
  | Except.ok d => d.maintenanceRequired
  | Except.error _ => []

/-- The `Power` column of a generation result (empty on error). -/
def powerColOf : Except PyError Dataset → List ℚ
  | Except.ok d => d.power
  | Except.error _ => []

/-- The length of the contiguous run of zero entries of `power` ending at
index `i` (0 when `power` at `i` is nonzero or out of range). -/
def zeroRunEndingAt (power : List ℚ) : ℕ → ℕ
  | 0 =>
    match power.getD 0 1 with
    | x => if x = 0 then 1 else 0
  | i + 1 =>
    if power.getD (i + 1) 1 = 0 then zeroRunEndingAt power i + 1 else 0

/-- `true` when `power` contains 8 consecutive zero entries, i.e. a
contiguous zero-power run of length strictly greater than
`NB_RECORDS_IMPACTED = 7`. -/
def hasZeroRunGT7 (power : List ℚ) : Bool :=
  (List.range power.length).any fun i =>
    ((power.drop i).take 8).length = 8 &&
      ((power.drop i).take 8).all fun x => x = 0

/-- A concrete oracle with constant streams; the CO2 stream yields 5 on
row 0 (above `CO2_LEVEL`) and 2 afterwards. -/
def rngA : SimRandom :=
  { o2 := fun _ => 21, co2 := fun i => if i = 0 then 5 else 2,
    doorOpen := fun _ => 30, statTemp := fun _ => 4,
    statPower := fun _ => 7, defrost := fun _ => 1, contentTypePick := 3,
    temp0 := 10, rowTemp := fun _ => 5, rowPwr := fun _ => 6,
    rowPwrcSeed := fun _ => 9 }

/-- A concrete oracle whose every power draw is negative, driving the
power-off state machine into back-to-back episodes. -/
def rngNeg : SimRandom :=
  { o2 := fun _ => 21, co2 := fun _ => 4, doorOpen := fun _ => 30,
    statTemp := fun _ => 4, statPower := fun _ => 7, defrost := fun _ => 1,
    contentTypePick := 3, temp0 := 10, rowTemp := fun _ => 5,
    rowPwr := fun _ => -1, rowPwrcSeed := fun _ => 9 }

/-- The Dataset with every column empty: the result of any tabular
generator at `nb_records = 0`. -/
def emptyDataset : Dataset :=
  { timestamp := [], id := [], temperature := [], targetTemperature := [],
    power := [], powerConsumption := [], contentType := [], o2 := [],
    co2 := [], timeDoorOpen := [], maintenanceRequired := [],
    defrostCycle := [] }

/-- The dataset `generatePowerOff rngNeg "101" 7 4 none none 0` returns:
one complete 7-row power-off episode, flagged on its last row. -/
def dNeg7 : Dataset :=
  { timestamp := [0, 15, 30, 45, 60, 75, 90],
    id := List.replicate 7 "101", temperature := List.replicate 7 10,
    targetTemperature := List.replicate 7 4,
    power := List.replicate 7 0,
    powerConsumption := [9, 8, 7, 6, 5, 4, 0],
    contentType := List.replicate 7 3, o2 := List.replicate 7 21,
    co2 := List.replicate 7 4, timeDoorOpen := List.replicate 7 30,
    maintenanceRequired := [0, 0, 0, 0, 0, 0, 1],
    defrostCycle := List.replicate 7 1 }

/-- The dataset `generateCo2 rngA "101" 2 4 (some 2) (some 0) 0` returns:
row 0 is CO2-flagged, row 1 is not. -/
def dCo2A : Dataset :=
  { timestamp := [0, 15], id := ["101", "101"], temperature := [4, 4],
    targetTemperature := [4, 4], power := [7, 7],
    powerConsumption := [7, 14], contentType := [2, 2], o2 := [21, 21],
    co2 := [5, 2], timeDoorOpen := [30, 30],
    maintenanceRequired := [1, 0], defrostCycle := [1, 1] }

theorem except_bind_ok {ε α β : Type} (a : α) (f : α → Except ε β) :
    (Except.ok a >>= f) = f a := rfl

theorem except_bind_error {ε α β : Type} (e : ε) (f : α → Except ε β) :
    ((Except.error e : Except ε α) >>= f) = Except.error e := rfl

theorem powerOffScan_length (st : PowerOffState) (l : List RowSamples) :
    (powerOffScan st l).length = l.length := by
  induction l generalizing st with
  | nil => rfl
  | cons s rest ih => simp [powerOffScan, ih]

theorem stateAt_zero (st : PowerOffState) (l : List RowSamples) :
    stateAt st l 0 = st := by
  cases l <;> rfl

theorem stateAt_succ (l : List RowSamples) (st : PowerOffState) (i : ℕ)
    (hi : i < l.length) :
    stateAt st l (i + 1) = (powerOffStep (stateAt st l i) l[i]).2 := by
  induction l generalizing st i with
  | nil => simp at hi
  | cons s rest ih =>
    cases i with
    | zero => simp [stateAt, stateAt_zero]
    | succ j =>
      have hj : j < rest.length := by simpa using hi
      simpa [stateAt] using ih (powerOffStep st s).2 j hj

theorem powerOffScan_getElem (l : List RowSamples) (st : PowerOffState)
    (i : ℕ) (hi : i < (powerOffScan st l).length) (hi' : i < l.length) :
    (powerOffScan st l)[i] = (powerOffStep (stateAt st l i) l[i]).1 := by
  induction l generalizing st i with
  | nil => simp at hi'
  | cons s rest ih =>
    cases i with
    | zero => simp [powerOffScan, stateAt_zero]
    | succ j =>
      have hj' : j < rest.length := by simpa using hi'
      have hj : j < (powerOffScan (powerOffStep st s).2 rest).length := by
        rw [powerOffScan_length]; exact hj'
      simpa [powerOffScan, stateAt] using ih (powerOffStep st s).2 j hj hj'

theorem step_count_le (st : PowerOffState) (s : RowSamples)
    (h : st.count_pwr ≤ 6) : (powerOffStep st s).2.count_pwr ≤ 6 := by
  unfold powerOffStep powerOffFlagAndEmit powerOffBranch NB_RECORDS_IMPACTED
  split_ifs <;> simp_all <;> omega

theorem step_post_count_pos (st : PowerOffState) (s : RowSamples)
    (h6 : st.count_pwr ≤ 6) (hpos : 0 < (powerOffStep st s).2.count_pwr) :
    (powerOffStep st s).1.power = 0 ∧
      (powerOffStep st s).2.count_pwr = st.count_pwr + 1 := by
  unfold powerOffStep powerOffFlagAndEmit powerOffBranch NB_RECORDS_IMPACTED at *
  split_ifs at * <;> simp_all <;> omega

theorem step_flag_iff (st : PowerOffState) (s : RowSamples) :
    (powerOffStep st s).1.maintenance_required = 1 ↔
      (powerOffBranch st s).count_pwr = NB_RECORDS_IMPACTED := by
  unfold powerOffStep powerOffFlagAndEmit
  split_ifs with h <;> simp [h]

theorem step_flag_emit (st : PowerOffState) (s : RowSamples)
    (hb : (powerOffBranch st s).count_pwr = NB_RECORDS_IMPACTED) :
    (powerOffStep st s).1.powerConsumption = 0 ∧
      (powerOffStep st s).2.count_pwr = 0 ∧
      (powerOffStep st s).2.pwrc = 0 := by
  unfold powerOffStep powerOffFlagAndEmit
  split_ifs <;> simp_all

theorem step_flag_power (st : PowerOffState) (s : RowSamples)
    (h6 : st.count_pwr ≤ 6)
    (hb : (powerOffBranch st s).count_pwr = NB_RECORDS_IMPACTED) :
    (powerOffStep st s).1.power = 0 ∧ st.count_pwr = 6 := by
  unfold powerOffStep powerOffFlagAndEmit powerOffBranch
    NB_RECORDS_IMPACTED at *
  split_ifs at * <;> simp_all <;> omega

theorem step_flag_cases (st : PowerOffState) (s : RowSamples) :
    (powerOffStep st s).1.maintenance_required = 0 ∨
      (powerOffStep st s).1.maintenance_required = 1 := by
  unfold powerOffStep powerOffFlagAndEmit
  split_ifs <;> simp

theorem step_zero_power_continuation (st : PowerOffState) (s : RowSamples)
    (hz : (powerOffStep st s).1.power = 0) (hnn : ¬ s.pwr ≤ 0) :
    0 < st.count_pwr ∧ st.count_pwr < NB_RECORDS_IMPACTED := by
  push_neg at hnn
  by_cases h1 : s.pwr < 0
  · exact absurd h1 (not_lt.mpr (le_of_lt hnn))
  · by_cases h2 : 0 < st.count_pwr ∧ st.count_pwr < NB_RECORDS_IMPACTED
    · exact h2
    · exfalso
      have hp : (powerOffStep st s).1.power = s.pwr := by
        unfold powerOffStep powerOffFlagAndEmit powerOffBranch
        rw [if_neg h1, if_neg h2]
        split_ifs <;> rfl
      rw [hp] at hz
      exact absurd hz (ne_of_gt hnn)

theorem stateAt_count_le (l : List RowSamples) (st : PowerOffState)
    (h : st.count_pwr ≤ 6) (i : ℕ) : (stateAt st l i).count_pwr ≤ 6 := by
  induction l generalizing st i with
  | nil => simpa [stateAt]
  | cons s rest ih =>
    cases i with
    | zero => simpa [stateAt]
    | succ j => exact ih (powerOffStep st s).2 (step_count_le st s h) j

theorem stateAt_count_window (l : List RowSamples) (st : PowerOffState)
    (h0 : st.count_pwr = 0) (i : ℕ) (hil : i ≤ l.length) :
    (stateAt st l i).count_pwr ≤ i ∧
      ∀ j, i - (stateAt st l i).count_pwr ≤ j → j < i →
        ∀ hj : j < l.length,
          (powerOffStep (stateAt st l j) l[j]).1.power = 0 := by
  induction i with
  | zero =>
    rw [stateAt_zero]
    exact ⟨le_of_eq h0, fun j _ hj0 _ => absurd hj0 (Nat.not_lt_zero j)⟩
  | succ i ih =>
    have hi : i < l.length := hil
    have hile : i ≤ l.length := le_of_lt hi
    obtain ⟨ihc, ihw⟩ := ih hile
    rw [stateAt_succ l st i hi]
    by_cases hc : 0 < (powerOffStep (stateAt st l i) l[i]).2.count_pwr
    · have h6 : (stateAt st l i).count_pwr ≤ 6 :=
        stateAt_count_le l st (le_of_eq h0 |>.trans (by omega)) i
      obtain ⟨hpw, hcnt⟩ := step_post_count_pos (stateAt st l i) l[i] h6 hc
      constructor
      · omega
      · intro j hjlo hjhi hj
        rcases Nat.lt_succ_iff_lt_or_eq.mp hjhi with hjlt | hjeq
        · exact ihw j (by omega) hjlt hj
        · subst hjeq; exact hpw
    · push_neg at hc
      have hc0 : (powerOffStep (stateAt st l i) l[i]).2.count_pwr = 0 := by
        omega
      rw [hc0]
      exact ⟨Nat.zero_le _, fun j hjlo hjhi _ => absurd hjhi (by omega)⟩

theorem generateStationaryCols_ok (rng : SimRandom) (n : ℤ) (cid : String)
    (ct : Option ℕ) (tgood : ℚ) (hn : ¬ n < 0) :
    generateStationaryCols rng n cid ct tgood = Except.ok
      { id := List.replicate n.toNat cid,
        contentType := List.replicate n.toNat (ct.getD rng.contentTypePick),
        targetTemperature := List.replicate n.toNat tgood,
        o2 := (List.range n.toNat).map rng.o2,
        co2 := (List.range n.toNat).map rng.co2,
        timeDoorOpen := (List.range n.toNat).map rng.doorOpen,
        temperature := (List.range n.toNat).map rng.statTemp,
        power := (List.range n.toNat).map rng.statPower,
        defrostCycle := (List.range n.toNat).map rng.defrost } := by
  simp [generateStationaryCols, npRepeat, npNormal, npRandint, hn,
    except_bind_ok]

theorem generateStationaryCols_neg (rng : SimRandom) (n : ℤ) (cid : String)
    (ct : Option ℕ) (tgood : ℚ) (hn : n < 0) :
    generateStationaryCols rng n cid ct tgood =
      Except.error PyError.valueError := by
  simp [generateStationaryCols, npRepeat, hn, except_bind_error]

theorem generatePowerOff_columns (rng : SimRandom) (cid : String) (n : ℤ)
    (tgood : ℚ) (ct : Option ℕ) (stt : Option ℤ) (now : ℤ) (d : Dataset)
    (h : generatePowerOff rng cid n tgood ct stt now = Except.ok d) :
    d.power = (simulatePowerOff rng n.toNat).map (fun r => r.power) ∧
      d.maintenanceRequired =
        (simulatePowerOff rng n.toNat).map (fun r => r.maintenance_required) ∧
      d.powerConsumption =
        (simulatePowerOff rng n.toNat).map (fun r => r.powerConsumption) := by
  by_cases hn : n < 0
  · rw [generatePowerOff,
      generateStationaryCols_neg rng n cid ct tgood hn] at h
    simp [except_bind_error] at h
  · rw [generatePowerOff,
      generateStationaryCols_ok rng n cid ct tgood hn] at h
    simp [except_bind_ok, generateTimestamps, hn] at h
    rw [← h]
    exact ⟨rfl, rfl, rfl⟩

theorem generateCo2_columns (rng : SimRandom) (cid : String) (n : ℤ)
    (tgood : ℚ) (ct : Option ℕ) (stt : Option ℤ) (now : ℤ) (d : Dataset)
    (h : generateCo2 rng cid n tgood ct stt now = Except.ok d) :
    d.power = (List.range n.toNat).map rng.statPower ∧
      d.powerConsumption = cumsum ((List.range n.toNat).map rng.statPower) ∧
      d.co2 = (List.range n.toNat).map rng.co2 ∧
      d.maintenanceRequired = ((List.range n.toNat).map rng.co2).map
        (fun x => if x > CO2_LEVEL ∨ x < 0 then 1 else 0) := by
  by_cases hn : n < 0
  · rw [generateCo2,
      generateStationaryCols_neg rng n cid ct tgood hn] at h
    simp [except_bind_error] at h
  · rw [generateCo2,
      generateStationaryCols_ok rng n cid ct tgood hn] at h
    simp [except_bind_ok, generateTimestamps, hn] at h
    rw [← h]
    exact ⟨rfl, rfl, rfl, by simp [List.map_map]⟩

theorem cumsumFrom_length (acc : ℚ) (l : List ℚ) :
    (cumsumFrom acc l).length = l.length := by
  induction l generalizing acc with
  | nil => rfl
  | cons x xs ih => simp [cumsumFrom, ih]

theorem cumsumFrom_getElem (l : List ℚ) (acc : ℚ) (i : ℕ)
    (hi : i < (cumsumFrom acc l).length) (hi' : i < l.length) :
    (cumsumFrom acc l)[i] = acc + (l.take (i + 1)).sum := by
  induction l generalizing acc i with
  | nil => simp at hi'
  | cons x xs ih =>
    cases i with
    | zero => simp [cumsumFrom]
    | succ j =>
      have hj' : j < xs.length := by simpa using hi'
      have hj : j < (cumsumFrom (acc + x) xs).length := by
        rw [cumsumFrom_length]; exact hj'
      calc (cumsumFrom acc (x :: xs))[j + 1]
          = (cumsumFrom (acc + x) xs)[j] := by simp [cumsumFrom]
        _ = acc + x + (xs.take (j + 1)).sum := ih (acc + x) j hj hj'
        _ = acc + ((x :: xs).take (j + 2)).sum := by
            simp [List.sum_cons, add_assoc]

theorem cumsum_getElem (l : List ℚ) (i : ℕ)
    (hi : i < (cumsum l).length) (hi' : i < l.length) :
    (cumsum l)[i] = (l.take (i + 1)).sum := by
  have h := cumsumFrom_getElem l 0 i hi hi'
  exact h.trans (zero_add _)

theorem simulatePowerOff_length (rng : SimRandom) (n : ℕ) :
    (simulatePowerOff rng n).length = n := by
  simp [simulatePowerOff, powerOffScan_length, samplesOf]

theorem samplesOf_getElem (rng : SimRandom) (n i : ℕ)
    (hi : i < (samplesOf rng n).length) :
    (samplesOf rng n)[i] = sampleAt rng i := by
  simp [samplesOf]

theorem simulatePowerOff_getElem (rng : SimRandom) (n i : ℕ)
    (hi : i < (simulatePowerOff rng n).length) :
    (simulatePowerOff rng n)[i] =
      (powerOffStep (poStateAt rng n i) (sampleAt rng i)).1 := by
  have hi2 : i < (powerOffScan (initState rng) (samplesOf rng n)).length := hi
  have hl : i < (samplesOf rng n).length := by
    rw [powerOffScan_length] at hi2; exact hi2
  have h := powerOffScan_getElem (samplesOf rng n) (initState rng) i hi2 hl
  rw [samplesOf_getElem rng n i hl] at h
  exact h

theorem poStateAt_count_le (rng : SimRandom) (n i : ℕ) :
    (poStateAt rng n i).count_pwr ≤ 6 :=
  stateAt_count_le (samplesOf rng n) (initState rng) (by simp [initState]) i

theorem poStateAt_window (rng : SimRandom) (n i : ℕ) (hil : i ≤ n) :
    (poStateAt rng n i).count_pwr ≤ i ∧
      ∀ j, i - (poStateAt rng n i).count_pwr ≤ j → j < i →
        ∀ hj : j < (simulatePowerOff rng n).length,
          ((simulatePowerOff rng n)[j]).power = 0 := by
  have hlen : (samplesOf rng n).length = n := by simp [samplesOf]
  obtain ⟨hc, hw⟩ := stateAt_count_window (samplesOf rng n) (initState rng)
    (by simp [initState]) i (by omega)
  refine ⟨hc, fun j hjlo hjhi hj => ?_⟩
  have hj' : j < (samplesOf rng n).length := by
    rw [hlen]; rw [simulatePowerOff_length] at hj; exact hj
  rw [simulatePowerOff_getElem rng n j hj]
  have := hw j hjlo hjhi hj'
  rw [samplesOf_getElem rng n j hj'] at this
  exact this

/-- C1: In the power-loss state machine, for every row of every run: if the
sampled power draw `pwr` is negative, the row's Power is 0, the run counter
is incremented by 1 (line 120; the episode-termination check of lines
127-131 may subsequently reset it), and the row's Temperature equals the
previous row's temperature; otherwise, if the run counter `c` satisfies
`0 < c < 7`, the counter is incremented, Power is 0, and Temperature equals
the previous row's temperature plus `0.8 * c` (with `c` the
already-incremented counter); otherwise Temperature and Power are the
freshly sampled values. -/
theorem power_off_row_branch_rules (st : PowerOffState) (s : RowSamples) :
    (s.pwr < 0 →
        (powerOffStep st s).1.power = 0 ∧
        (powerOffBranch st s).count_pwr = st.count_pwr + 1 ∧
        (powerOffStep st s).1.temperature = st.temp) ∧
    (¬ s.pwr < 0 → 0 < st.count_pwr → st.count_pwr < NB_RECORDS_IMPACTED →
        (powerOffBranch st s).count_pwr = st.count_pwr + 1 ∧
        (powerOffStep st s).1.power = 0 ∧
        (powerOffStep st s).1.temperature =
          st.temp + 0.8 * ((st.count_pwr : ℚ) + 1)) ∧
    (¬ s.pwr < 0 →
        ¬ (0 < st.count_pwr ∧ st.count_pwr < NB_RECORDS_IMPACTED) →
        (powerOffStep st s).1.temperature = s.temp ∧
        (powerOffStep st s).1.power = s.pwr) := by
  refine ⟨fun h1 => ?_, fun h1 h2 h3 => ?_, fun h1 h2 => ?_⟩
  · unfold powerOffStep powerOffFlagAndEmit powerOffBranch
    rw [if_pos h1]
    split_ifs <;> exact ⟨rfl, rfl, rfl⟩
  · unfold powerOffStep powerOffFlagAndEmit powerOffBranch
    rw [if_neg h1, if_pos ⟨h2, h3⟩]
    split_ifs <;> exact ⟨rfl, rfl, rfl⟩
  · unfold powerOffStep powerOffFlagAndEmit powerOffBranch
    rw [if_neg h1, if_neg h2]
    split_ifs <;> exact ⟨rfl, rfl⟩

/-- Witness for C1 at the concrete state `⟨10, 3, 5⟩` and samples
`⟨2, -1, 9⟩` (negative power draw, mid-episode). -/
theorem power_off_row_branch_rules_witness :
    (powerOffStep ⟨10, 3, 5⟩ ⟨2, -1, 9⟩).1.power = 0 ∧
    (powerOffBranch ⟨10, 3, 5⟩ ⟨2, -1, 9⟩).count_pwr = 3 + 1 ∧
    (powerOffStep ⟨10, 3, 5⟩ ⟨2, -1, 9⟩).1.temperature = 10 :=
  (power_off_row_branch_rules ⟨10, 3, 5⟩ ⟨2, -1, 9⟩).1 (by norm_num)

/-- C2: In the CO2-fault scenario, for every row `i` of the returned
Dataset, `Maintenance_Required[i] = 1` if and only if `CO2[i] > 4` or
`CO2[i] < 0`. -/
theorem co2_maintenance_iff (rng : SimRandom) (cid : String) (n : ℤ)
    (tgood : ℚ) (ct : Option ℕ) (stt : Option ℤ) (now : ℤ) (d : Dataset)
    (h : generateCo2 rng cid n tgood ct stt now = Except.ok d) (i : ℕ)
    (hm : i < d.maintenanceRequired.length) (hc : i < d.co2.length) :
    d.maintenanceRequired[i] = 1 ↔ d.co2[i] > 4 ∨ d.co2[i] < 0 := by
  obtain ⟨-, -, hco2, hmnt⟩ :=
    generateCo2_columns rng cid n tgood ct stt now d h
  have hc2 : i < ((List.range n.toNat).map rng.co2).length := by
    rw [← hco2]; exact hc
  have e1 : d.maintenanceRequired[i] =
      (if ((List.range n.toNat).map rng.co2)[i] > CO2_LEVEL ∨
          ((List.range n.toNat).map rng.co2)[i] < 0 then 1 else 0) := by
    rw [List.getElem_of_eq hmnt hm]
    exact List.getElem_map _
  have e2 : d.co2[i] = ((List.range n.toNat).map rng.co2)[i] :=
    List.getElem_of_eq hco2 hc
  rw [e1, e2, CO2_LEVEL]
  split_ifs with hx
  · exact iff_of_true rfl hx
  · exact iff_of_false (by simp) hx

/-- Witness for C2: in the 2-row CO2 dataset `dCo2A`, row 0 (CO2 = 5 > 4)
is flagged. -/
theorem co2_maintenance_iff_witness :
    dCo2A.maintenanceRequired[0] = 1 ↔ dCo2A.co2[0] > 4 ∨ dCo2A.co2[0] < 0 :=
  co2_maintenance_iff rngA "101" 2 4 (some 2) (some 0) 0 dCo2A
    (by with_unfolding_all rfl) 0 (by decide) (by decide)

/-- C6: In the power-loss state machine, the `PowerConsumption` accumulator
`pwrc` is updated on every row, before the power-off branching (the update
is the same in all three branches): if `pwrc = 0` it is reseeded as a fresh
sample (drawn from `N(7.2, 10)`, the `pwrcSeed` stream); otherwise
`pwrc := pwr + pwrc` where `pwr` is the freshly sampled, possibly negative,
not-yet-zeroed power draw.  The recurrence is preserved literally. -/
theorem pwrc_update_rule (st : PowerOffState) (s : RowSamples) :
    (powerOffBranch st s).pwrc =
      if st.pwrc = 0 then s.pwrcSeed else s.pwr + st.pwrc := by
  unfold powerOffBranch updatePwrc
  split_ifs <;> rfl

/-- C7: In the CO2-fault scenario, `PowerConsumption[i]` equals the sum of
`Power[0]` through `Power[i]` for every row `i` of the returned Dataset. -/
theorem co2_powerConsumption_cumsum (rng : SimRandom) (cid : String)
    (n : ℤ) (tgood : ℚ) (ct : Option ℕ) (stt : Option ℤ) (now : ℤ)
    (d : Dataset) (h : generateCo2 rng cid n tgood ct stt now = Except.ok d)
    (i : ℕ) (hpc : i < d.powerConsumption.length) (hp : i < d.power.length) :
    d.powerConsumption[i] = (d.power.take (i + 1)).sum := by
  obtain ⟨hpow, hcs, -, -⟩ :=
    generateCo2_columns rng cid n tgood ct stt now d h
  have hcl : i < (cumsum ((List.range n.toNat).map rng.statPower)).length := by
    rw [← hcs]; exact hpc
  have hll : i < ((List.range n.toNat).map rng.statPower).length := by
    rw [cumsum, cumsumFrom_length] at hcl; exact hcl
  have e1 : d.powerConsumption[i] =
      (cumsum ((List.range n.toNat).map rng.statPower))[i] :=
    List.getElem_of_eq hcs hpc
  rw [e1, cumsum_getElem _ i hcl hll, hpow]

/-- Witness for C7: in the 2-row CO2 dataset `dCo2A`,
`PowerConsumption[1] = 14 = 7 + 7`. -/
theorem co2_powerConsumption_cumsum_witness :
    dCo2A.powerConsumption[1] = (dCo2A.power.take 2).sum :=
  co2_powerConsumption_cumsum rngA "101" 2 4 (some 2) (some 0) 0 dCo2A
    (by with_unfolding_all rfl) 1 (by decide) (by decide)

/-- C9: Both tuple-producing variants reference a bare free generation
function (`generatePowerOff` on line 216, `generateCo2` on line 279) that
is not defined at module scope, so invoking either as written raises
`NameError` for every input. -/
theorem tuple_variants_nameError (rng : SimRandom) (cid : String) (n : ℤ)
    (tgood : ℚ) (ct : Option ℕ) (stt : Option ℤ) (now : ℤ) :
    generatePowerOffTuples rng cid n tgood ct stt now =
        Except.error PyError.nameError ∧
      generateCo2Tuples rng cid n tgood ct stt now =
        Except.error PyError.nameError :=
  ⟨rfl, rfl⟩

/-- C8 (divergence evidence): at a concrete valid input, both tuple
variants raise `NameError` instead of returning row-tuples with
`Maintenance_Required` forced to 0, contradicting the documented tuple
contract. -/
theorem tuple_variants_raise_at_valid_input :
    generatePowerOffTuples rngA "101" 2 4 none none 0 =
        Except.error PyError.nameError ∧
      generateCo2Tuples rngA "101" 2 4 none none 0 =
        Except.error PyError.nameError :=
  ⟨rfl, rfl⟩

theorem getD_replicate_zero (n i : ℕ) :
    (List.replicate n (0 : ℕ)).getD i 0 = 0 := by
  induction n generalizing i with
  | zero => cases i <;> rfl
  | succ m ih =>
    cases i with
    | zero => rfl
    | succ j => simpa [List.replicate] using ih j

/-- Supporting fact for C8: once the dangling reference is wired to the
simulator's own tabular generator (as the spec directs), every returned
row-tuple has `Maintenance_Required = 0`. -/
theorem wired_tuples_force_zero_maintenance (rng : SimRandom) (cid : String)
    (n : ℤ) (tgood : ℚ) (ct : Option ℕ) (stt : Option ℤ) (now : ℤ)
    (out : List Record)
    (h : generatePowerOffTuplesWired rng cid n tgood ct stt now =
      Except.ok out) :
    ∀ r ∈ out, r.maintenanceRequired = 0 := by
  intro r hr
  rcases he : generatePowerOff rng cid n tgood ct none now with e | df
  · rw [generatePowerOffTuplesWired, he] at h
    simp [except_bind_error] at h
  · rw [generatePowerOffTuplesWired, he] at h
    simp only [except_bind_ok] at h
    have h' : toRecords { df with
        maintenanceRequired := List.replicate n.toNat 0 } = out :=
      Except.ok.inj h
    rw [← h'] at hr
    simp only [toRecords, List.mem_map] at hr
    obtain ⟨j, -, hj⟩ := hr
    rw [← hj]
    exact getD_replicate_zero n.toNat j

/-- C10: In every Dataset produced by the power-loss scenario, every row
`i` with `Maintenance_Required[i] = 1` has `PowerConsumption[i] = 0` and
`Power[i] = 0`: the counter/accumulator reset of lines 130-131 happens
before the row's values are stored (lines 133-136), so the reset is
visible in the flagged row itself. -/
theorem flagged_row_zero_power_and_consumption (rng : SimRandom)
    (cid : String) (n : ℤ) (tgood : ℚ) (ct : Option ℕ) (stt : Option ℤ)
    (now : ℤ) (d : Dataset)
    (h : generatePowerOff rng cid n tgood ct stt now = Except.ok d) (i : ℕ)
    (hm : i < d.maintenanceRequired.length) (hp : i < d.power.length)
    (hc : i < d.powerConsumption.length)
    (hf : d.maintenanceRequired[i] = 1) :
    d.power[i] = 0 ∧ d.powerConsumption[i] = 0 := by
  obtain ⟨hpow, hmnt, hpc⟩ :=
    generatePowerOff_columns rng cid n tgood ct stt now d h
  have hi : i < (simulatePowerOff rng n.toNat).length := by
    rw [hmnt, List.length_map] at hm; exact hm
  have hrow := simulatePowerOff_getElem rng n.toNat i hi
  have hflag :
      ((simulatePowerOff rng n.toNat)[i]).maintenance_required = 1 := by
    rw [List.getElem_of_eq hmnt hm] at hf
    simp only [List.getElem_map] at hf
    exact hf
  rw [hrow] at hflag
  have h6 := poStateAt_count_le rng n.toNat i
  have hbr := (step_flag_iff _ _).mp hflag
  obtain ⟨hpw, -⟩ := step_flag_power _ _ h6 hbr
  obtain ⟨hpc0, -, -⟩ := step_flag_emit _ _ hbr
  constructor
  · rw [List.getElem_of_eq hpow hp]
    simp only [List.getElem_map]
    rw [hrow]
    exact hpw
  · rw [List.getElem_of_eq hpc hc]
    simp only [List.getElem_map]
    rw [hrow]
    exact hpc0

/-- Witness for C10: in `dNeg7` the flagged row 6 has both Power and
PowerConsumption equal to 0. -/
theorem flagged_row_zero_power_and_consumption_witness :
    dNeg7.power[6] = 0 ∧ dNeg7.powerConsumption[6] = 0 :=
  flagged_row_zero_power_and_consumption rngNeg "101" 7 4 none none 0 dNeg7
    (by with_unfolding_all rfl) 6 (by decide) (by decide) (by decide)
    (by decide)

/-- C4 counterexample: with every power draw negative, rows 0-6 form a
complete episode (flag and reset on row 6) and row 7 immediately starts a
new episode, so the power column is 8 consecutive zeros — a contiguous
zero-power run of length 8 > 7, refuting "maximal contiguous runs of rows
with Power == 0 never have length greater than 7". -/
theorem zero_run_exceeds_seven :
    powerColOf (generatePowerOff rngNeg "101" 8 4 none none 0) =
        List.replicate 8 0 ∧
      hasZeroRunGT7
        (powerColOf (generatePowerOff rngNeg "101" 8 4 none none 0)) =
        true :=
  ⟨by with_unfolding_all rfl, by with_unfolding_all rfl⟩

/-- C4 (amended): in every Dataset produced by the power-loss scenario,
every zero-power row `i > 0` either had a non-positive sampled draw
(episode entry when negative; the degenerate exactly-zero sample also
yields zero Power outside any episode) or is immediately preceded by
another zero-power row.  Maximal zero-power runs remain contiguous but may
chain several 7-row episodes back to back, so they are not bounded by 7. -/
theorem zero_power_rows_contiguity (rng : SimRandom) (cid : String)
    (n : ℤ) (tgood : ℚ) (ct : Option ℕ) (stt : Option ℤ) (now : ℤ)
    (d : Dataset)
    (h : generatePowerOff rng cid n tgood ct stt now = Except.ok d) (i : ℕ)
    (h0 : 0 < i) (hp : i < d.power.length) (hp' : i - 1 < d.power.length)
    (hz : d.power[i] = 0) :
    rng.rowPwr i ≤ 0 ∨ d.power[i - 1] = 0 := by
  obtain ⟨hpow, -, -⟩ :=
    generatePowerOff_columns rng cid n tgood ct stt now d h
  by_cases hs : rng.rowPwr i ≤ 0
  · exact Or.inl hs
  right
  have hi : i < (simulatePowerOff rng n.toNat).length := by
    rw [hpow, List.length_map] at hp; exact hp
  have hin : i < n.toNat := by
    rw [simulatePowerOff_length] at hi; exact hi
  have hrow := simulatePowerOff_getElem rng n.toNat i hi
  have hzrow :
      ((powerOffStep (poStateAt rng n.toNat i) (sampleAt rng i)).1).power
        = 0 := by
    rw [← hrow]
    rw [List.getElem_of_eq hpow hp] at hz
    simp only [List.getElem_map] at hz
    exact hz
  obtain ⟨hcp, -⟩ :=
    step_zero_power_continuation (poStateAt rng n.toNat i) (sampleAt rng i)
      hzrow hs
  obtain ⟨hw1, hw2⟩ := poStateAt_window rng n.toNat i (le_of_lt hin)
  have hj : i - 1 < (simulatePowerOff rng n.toNat).length := by
    rw [simulatePowerOff_length]; omega
  have hprev := hw2 (i - 1) (by omega) (by omega) hj
  rw [List.getElem_of_eq hpow hp']
  simp only [List.getElem_map]
  exact hprev

/-- Witness for C4 (amended) at `dNeg7`, row 1: the sampled draw is
negative, so the left disjunct holds (and in fact row 0 is also
zero-power). -/
theorem zero_power_rows_contiguity_witness :
    rngNeg.rowPwr 1 ≤ 0 ∨ dNeg7.power[1 - 1] = 0 :=
  zero_power_rows_contiguity rngNeg "101" 7 4 none none 0 dNeg7
    (by with_unfolding_all rfl) 1 (by decide) (by decide) (by decide)
    (by decide)

/-- C5 counterexample: with every power draw negative for 14 rows, rows 6
and 13 are flagged; the run of zero-power rows immediately preceding (and
including) row 13 has length 14, not exactly 7, because the episode ending
at row 13 chains directly onto the one ending at row 6. -/
theorem flag_run_not_exactly_seven :
    maintColOf (generatePowerOff rngNeg "101" 14 4 none none 0) =
        [0, 0, 0, 0, 0, 0, 1, 0, 0, 0, 0, 0, 0, 1] ∧
      zeroRunEndingAt
        (powerColOf (generatePowerOff rngNeg "101" 14 4 none none 0)) 13 =
        14 :=
  ⟨by with_unfolding_all rfl, by with_unfolding_all rfl⟩

/-- C5 (amended): in every Dataset produced by the power-loss scenario, a
row is flagged exactly when the power-off run counter reaches 7 on that
row, and on a flagged row `i` the 7 rows `i-6 .. i` are all zero-power
(so the zero-power run ending at `i` has length at least — not exactly —
7, since consecutive episodes can chain) and both the counter and the
consumption accumulator are reset to 0 going into row `i+1`.  All rows
where the counter has not reached 7 have `Maintenance_Required = 0`. -/
theorem maintenance_flag_characterization (rng : SimRandom) (cid : String)
    (n : ℤ) (tgood : ℚ) (ct : Option ℕ) (stt : Option ℤ) (now : ℤ)
    (d : Dataset)
    (h : generatePowerOff rng cid n tgood ct stt now = Except.ok d) (i : ℕ)
    (hm : i < d.maintenanceRequired.length) :
    (d.maintenanceRequired[i] = 1 ↔
        (powerOffBranch (poStateAt rng n.toNat i)
          (sampleAt rng i)).count_pwr = NB_RECORDS_IMPACTED) ∧
    (d.maintenanceRequired[i] = 1 →
        6 ≤ i ∧
        (∀ j, i - 6 ≤ j → j ≤ i → ∀ hj : j < d.power.length,
          d.power[j] = 0) ∧
        (poStateAt rng n.toNat (i + 1)).count_pwr = 0 ∧
        (poStateAt rng n.toNat (i + 1)).pwrc = 0) ∧
    (d.maintenanceRequired[i] = 0 ∨ d.maintenanceRequired[i] = 1) := by
  obtain ⟨hpow, hmnt, hpc⟩ :=
    generatePowerOff_columns rng cid n tgood ct stt now d h
  have hi : i < (simulatePowerOff rng n.toNat).length := by
    rw [hmnt, List.length_map] at hm; exact hm
  have hin : i < n.toNat := by
    rw [simulatePowerOff_length] at hi; exact hi
  have hrow := simulatePowerOff_getElem rng n.toNat i hi
  have hmval : d.maintenanceRequired[i] =
      ((powerOffStep (poStateAt rng n.toNat i)
        (sampleAt rng i)).1).maintenance_required := by
    rw [List.getElem_of_eq hmnt hm]
    simp only [List.getElem_map]
    rw [hrow]
  refine ⟨?_, ?_, ?_⟩
  · rw [hmval]; exact step_flag_iff _ _
  · intro hf
    rw [hmval] at hf
    have h6 := poStateAt_count_le rng n.toNat i
    have hbr := (step_flag_iff _ _).mp hf
    obtain ⟨hpw, hc6⟩ := step_flag_power _ _ h6 hbr
    obtain ⟨hw1, hw2⟩ := poStateAt_window rng n.toNat i (le_of_lt hin)
    have h6i : 6 ≤ i := by rw [hc6] at hw1; exact hw1
    refine ⟨h6i, ?_, ?_⟩
    · intro j hj1 hj2 hj
      have hjrows : j < (simulatePowerOff rng n.toNat).length := by
        rw [hpow, List.length_map] at hj; exact hj
      rcases lt_or_eq_of_le hj2 with hjlt | hjeq
      · have hz := hw2 j (by rw [hc6]; omega) hjlt hjrows
        rw [List.getElem_of_eq hpow hj]
        simp only [List.getElem_map]
        exact hz
      · subst hjeq
        rw [List.getElem_of_eq hpow hj]
        simp only [List.getElem_map]
        rw [hrow]
        exact hpw
    · have hsl : i < (samplesOf rng n.toNat).length := by
        simpa [samplesOf] using hin
      have hsucc : poStateAt rng n.toNat (i + 1) =
          (powerOffStep (poStateAt rng n.toNat i) (sampleAt rng i)).2 := by
        rw [poStateAt,
          stateAt_succ (samplesOf rng n.toNat) (initState rng) i hsl,
          samplesOf_getElem rng n.toNat i hsl]
        rfl
      obtain ⟨-, hr1, hr2⟩ := step_flag_emit _ _ hbr
      rw [hsucc]
      exact ⟨hr1, hr2⟩
  · rw [hmval]; exact step_flag_cases _ _

/-- Witness for C5 (amended) at `dNeg7`, flagged row 6. -/
theorem maintenance_flag_characterization_witness :
    (dNeg7.maintenanceRequired[6] = 1 ↔
        (powerOffBranch (poStateAt rngNeg (7 : ℤ).toNat 6)
          (sampleAt rngNeg 6)).count_pwr = NB_RECORDS_IMPACTED) ∧
    (dNeg7.maintenanceRequired[6] = 1 →
        6 ≤ 6 ∧
        (∀ j, 6 - 6 ≤ j → j ≤ 6 → ∀ hj : j < dNeg7.power.length,
          dNeg7.power[j] = 0) ∧
        (poStateAt rngNeg (7 : ℤ).toNat (6 + 1)).count_pwr = 0 ∧
        (poStateAt rngNeg (7 : ℤ).toNat (6 + 1)).pwrc = 0) ∧
    (dNeg7.maintenanceRequired[6] = 0 ∨ dNeg7.maintenanceRequired[6] = 1) :=
  maintenance_flag_characterization rngNeg "101" 7 4 none none 0 dNeg7
    (by with_unfolding_all rfl) 6 (by decide)

/-- C3 counterexample: at row count 0 both tabular generators return an
empty Dataset normally — no `InvalidConfiguration` (or any error) is
raised — and at row count -1 the failure is the array library's
`ValueError`, not `InvalidConfiguration`. -/
theorem no_invalidConfiguration_raised :
    generatePowerOff rngA "101" 0 4 none none 0 = Except.ok emptyDataset ∧
      generateCo2 rngA "101" 0 4 none none 0 = Except.ok emptyDataset ∧
      generatePowerOff rngA "101" 0 4 none none 0 ≠
        Except.error PyError.invalidConfiguration ∧
      generateCo2 rngA "101" 0 4 none none 0 ≠
        Except.error PyError.invalidConfiguration ∧
      generatePowerOff rngA "101" (-1) 4 none none 0 =
        Except.error PyError.valueError ∧
      generatePowerOff rngA "101" (-1) 4 none none 0 ≠
        Except.error PyError.invalidConfiguration :=
  ⟨by with_unfolding_all rfl, by with_unfolding_all rfl,
   by with_unfolding_all decide, by with_unfolding_all decide,
   by with_unfolding_all rfl, by with_unfolding_all decide⟩

/-- C3 (amended): the source performs no row-count validation and defines
no `InvalidConfiguration`.  For N < 0 the tabular generators fail with the
array library's `ValueError`, raised while allocating the first column
(before any row is generated); the tuple variants fail with `NameError`
for every N (see C9).  For N = 0 both tabular generators return an empty
Dataset successfully. -/
theorem n_nonpositive_behavior (rng : SimRandom) (cid : String)
    (tgood : ℚ) (ct : Option ℕ) (stt : Option ℤ) (now : ℤ) (n : ℤ)
    (hneg : n < 0) :
    generatePowerOff rng cid n tgood ct stt now =
        Except.error PyError.valueError ∧
      generateCo2 rng cid n tgood ct stt now =
        Except.error PyError.valueError ∧
      generatePowerOffTuples rng cid n tgood ct stt now =
        Except.error PyError.nameError ∧
      generateCo2Tuples rng cid n tgood ct stt now =
        Except.error PyError.nameError ∧
      generatePowerOff rng cid 0 tgood ct stt now = Except.ok emptyDataset ∧
      generateCo2 rng cid 0 tgood ct stt now = Except.ok emptyDataset := by
  refine ⟨?_, ?_, rfl, rfl, ?_, ?_⟩
  · rw [generatePowerOff, generateStationaryCols_neg rng n cid ct tgood hneg]
    rfl
  · rw [generateCo2, generateStationaryCols_neg rng n cid ct tgood hneg]
    rfl
  · rw [generatePowerOff,
      generateStationaryCols_ok rng 0 cid ct tgood (by decide)]
    rfl
  · rw [generateCo2,
      generateStationaryCols_ok rng 0 cid ct tgood (by decide)]
    rfl

/-- Witness for C3 (amended) at N = -1 with the concrete oracle `rngA`. -/
theorem n_nonpositive_behavior_witness :
    generatePowerOff rngA "101" (-1) 4 none none 0 =
        Except.error PyError.valueError ∧
      generateCo2 rngA "101" (-1) 4 none none 0 =
        Except.error PyError.valueError ∧
      generatePowerOffTuples rngA "101" (-1) 4 none none 0 =
        Except.error PyError.nameError ∧
      generateCo2Tuples rngA "101" (-1) 4 none none 0 =
        Except.error PyError.nameError ∧
      generatePowerOff rngA "101" 0 4 none none 0 = Except.ok emptyDataset ∧
      generateCo2 rngA "101" 0 4 none none 0 = Except.ok emptyDataset :=
  n_nonpositive_behavior rngA "101" 4 none none 0 (-1) (by decide)
